import Mathlib

/-!
Verification of the AI Council client (static/js/app.js, session.js, voting.js)
against its natural-language specification. Server-side components that are not
part of src/ (the Vote Aggregator and the Persona Binding Layer) are modelled
from the specification text and marked as such in their doc comments.
-/

namespace AiCouncil

/-! ## Voting state (voting.js)

The JS `votingState.votes` object maps a candidate id to a rank (0 = skip).
A JS object is a finite list of key-value pairs with unique keys; we embed it
as an association list of (candidate id, rank) pairs, in insertion order, as
`Object.entries` iterates it. -/

/-- One synthesized candidate (voting.js: objects in `state.candidates`);
only the fields the claims need. -/
structure Candidate where
  id : String
  summary : String
deriving DecidableEq, Repr

/-- The mutable `votingState` object of voting.js (lines 10-18). Feedback maps
are association lists keyed by candidate / worker id. -/
structure VotingState where
  votes : List (String × Nat)
  candidateFeedback : List (String × String)
  workerFeedback : List (String × String)
  overallFeedback : String
  synthesizerFeedback : String
  promptRating : Nat
  promptFeedback : String
deriving DecidableEq, Repr

/-- The reset performed at the top of `buildVotingUI` (voting.js lines 29-35):
every map emptied, texts cleared, prompt rating back to 0 (skip). -/
def resetVotingState : VotingState :=
  { votes := [], candidateFeedback := [], workerFeedback := []
    overallFeedback := "", synthesizerFeedback := ""
    promptRating := 0, promptFeedback := "" }

/-- voting.js `setVote` lines 453-462: when the selected rank is positive, every
other candidate currently holding that rank is reset to 0 (skip). Embeds the
`for (const [cid, r] of Object.entries(votingState.votes))` loop. -/
def clearOthers (votes : List (String × Nat)) (cid : String) (rank : Nat) :
    List (String × Nat) :=
  votes.map fun p => if p.1 ≠ cid ∧ p.2 = rank then (p.1, 0) else p

/-- JS object assignment `votes[cid] = rank`: overwrite the entry when the key
is present, append it otherwise. -/
def objSet (votes : List (String × Nat)) (cid : String) (rank : Nat) :
    List (String × Nat) :=
  if votes.any fun p => p.1 = cid then
    votes.map fun p => if p.1 = cid then (cid, rank) else p
  else
    votes ++ [(cid, rank)]

/-- voting.js `setVote` (lines 452-467): clear the chosen rank from any other
candidate (only when rank > 0), then assign the rank to this candidate.
The DOM updates (`updateCandidateVoteUI`, `updateSubmitButton`) have no effect
on `votingState.votes` and are not part of the embedding. -/
def setVote (votes : List (String × Nat)) (cid : String) (rank : Nat) :
    List (String × Nat) :=
  objSet (if 0 < rank then clearOthers votes cid rank else votes) cid rank

/-- Rank uniqueness: any two entries holding the same positive rank belong to
the same candidate id. -/
def rankUnique (votes : List (String × Nat)) : Prop :=
  ∀ v : Nat, 0 < v → ∀ p ∈ votes, ∀ q ∈ votes, p.2 = v → q.2 = v → p.1 = q.1

/-- A whole interaction session: the sequence of `setVote` calls applied to the
freshly reset voting state (votes start as the empty object). -/
def applySetVotes (calls : List (String × Nat)) : List (String × Nat) :=
  calls.foldl (fun votes c => setVote votes c.1 c.2) resetVotingState.votes

lemma mem_clearOthers {votes : List (String × Nat)} {cid : String} {rank : Nat}
    {p : String × Nat} (hp : p ∈ clearOthers votes cid rank) :
    p.2 = 0 ∨ (p ∈ votes ∧ ¬(p.1 ≠ cid ∧ p.2 = rank)) := by
  obtain ⟨q, hq, he⟩ := List.mem_map.mp hp
  by_cases h : q.1 ≠ cid ∧ q.2 = rank
  · left
    simp only [if_pos h] at he
    rw [← he]
  · right
    simp only [if_neg h] at he
    rw [← he]
    exact ⟨hq, h⟩

lemma mem_objSet {votes : List (String × Nat)} {cid : String} {rank : Nat}
    {p : String × Nat} (hp : p ∈ objSet votes cid rank) :
    p = (cid, rank) ∨ (p ∈ votes ∧ p.1 ≠ cid) := by
  unfold objSet at hp
  by_cases h : votes.any fun p => p.1 = cid
  · rw [if_pos h] at hp
    obtain ⟨q, hq, he⟩ := List.mem_map.mp hp
    by_cases hk : q.1 = cid
    · left
      simp only [if_pos hk] at he
      exact he.symm
    · right
      simp only [if_neg hk] at he
      rw [← he]
      exact ⟨hq, hk⟩
  · rw [if_neg h] at hp
    rcases List.mem_append.mp hp with hmem | hone
    · right
      refine ⟨hmem, ?_⟩
      simp only [List.any_eq_true, not_exists, not_and] at h
      have := h p hmem
      simpa using this
    · left
      simpa using hone

/-- Shape of every entry after a `setVote` call: it is either the freshly
assigned pair, or an entry for another candidate that was zeroed, or an
untouched entry from before — which, when the new rank is positive, cannot
hold that rank. -/
lemma mem_setVote {votes : List (String × Nat)} {cid : String} {rank : Nat}
    {p : String × Nat} (hp : p ∈ setVote votes cid rank) :
    p = (cid, rank) ∨
      (p.1 ≠ cid ∧ (p.2 = 0 ∨ (p ∈ votes ∧ (0 < rank → p.2 ≠ rank)))) := by
  unfold setVote at hp
  rcases mem_objSet hp with h | ⟨hmem, hne⟩
  · exact Or.inl h
  · right
    refine ⟨hne, ?_⟩
    by_cases hr : 0 < rank
    · rw [if_pos hr] at hmem
      rcases mem_clearOthers hmem with h0 | ⟨hv, hcond⟩
      · exact Or.inl h0
      · refine Or.inr ⟨hv, fun _ => ?_⟩
        intro habs
        exact hcond ⟨hne, habs⟩
    · rw [if_neg hr] at hmem
      exact Or.inr ⟨hmem, fun h => absurd h hr⟩

/-- One `setVote` call preserves rank uniqueness. -/
lemma setVote_preserves_rankUnique {votes : List (String × Nat)}
    (h : rankUnique votes) (cid : String) (rank : Nat) :
    rankUnique (setVote votes cid rank) := by
  intro v hv p hp q hq hpv hqv
  rcases mem_setVote hp with hP | ⟨hpne, hpcase⟩ <;>
    rcases mem_setVote hq with hQ | ⟨hqne, hqcase⟩
  · rw [hP, hQ]
  · -- p is the assigned pair, q survives with another key: impossible for v = rank
    exfalso
    have hrank : rank = v := by rw [hP] at hpv; exact hpv
    rcases hqcase with hq0 | ⟨hqmem, hqr⟩
    · omega
    · exact hqr (by omega) (by omega)
  · exfalso
    have hrank : rank = v := by rw [hQ] at hqv; exact hqv
    rcases hpcase with hp0 | ⟨hpmem, hpr⟩
    · omega
    · exact hpr (by omega) (by omega)
  · rcases hpcase with hp0 | ⟨hpmem, _⟩
    · omega
    · rcases hqcase with hq0 | ⟨hqmem, _⟩
      · omega
      · exact h v hv p hpmem q hqmem hpv hqv

lemma rankUnique_nil : rankUnique [] := by
  intro v hv p hp
  simp at hp

lemma rankUnique_foldl (calls : List (String × Nat)) :
    ∀ votes : List (String × Nat), rankUnique votes →
      rankUnique (calls.foldl (fun vs c => setVote vs c.1 c.2) votes) := by
  induction calls with
  | nil => intro votes h; simpa using h
  | cons c rest ih =>
      intro votes h
      exact ih _ (setVote_preserves_rankUnique h c.1 c.2)

/-- Claim C8: after every call to `setVote`, each rank value in {1, 2, 3} is
held by at most one candidate — assigning a positive rank resets any other
candidate holding it to 0 (skip) — and the uniqueness invariant is preserved by
every sequence of `setVote` calls starting from the reset voting state. -/
theorem C8_setVote_rank_unique :
    (∀ (votes : List (String × Nat)) (cid : String) (rank : Nat),
        rankUnique votes → rankUnique (setVote votes cid rank)) ∧
    (∀ (calls : List (String × Nat)) (v : Nat), v = 1 ∨ v = 2 ∨ v = 3 →
        ∀ p ∈ applySetVotes calls, ∀ q ∈ applySetVotes calls,
          p.2 = v → q.2 = v → p.1 = q.1) := by
  constructor
  · intro votes cid rank h
    exact setVote_preserves_rankUnique h cid rank
  · intro calls v hv p hp q hq hpv hqv
    have huniq : rankUnique (applySetVotes calls) :=
      rankUnique_foldl calls resetVotingState.votes rankUnique_nil
    exact huniq v (by omega) p hp q hq hpv hqv

/-- Witness for C8: a concrete run — first candidate "a" ranked 1st, then
candidate "b" ranked 1st — ends with "a" reset to skip, and the theorem applied
to that run settles that "b" is the unique holder of rank 1. -/
theorem C8_setVote_rank_unique_witness :
    rankUnique (setVote [("a", 1)] "b" 1) ∧
      applySetVotes [("a", 1), ("b", 1)] = [("a", 0), ("b", 1)] := by
  constructor
  · exact C8_setVote_rank_unique.1 [("a", 1)] "b" 1 (by
      intro v hv p hp q hq hpv hqv
      simp only [List.mem_singleton] at hp hq
      rw [hp, hq])
  · decide

/-! ## Vote submission with zero candidates (voting.js, claim C1) -/

/-- A nonempty trimmed string, as JS `f && f.trim()` used by
`updateSubmitButton`. -/
def strTrimNonempty (s : String) : Bool :=
  !(s.trim.isEmpty)

/-- voting.js `updateSubmitButton` (lines 483-506): whether the submit button
is enabled. `hasPromptRating` embeds the source test
`promptRating !== null && promptRating !== undefined`, which is always true
because the field is initialised to the number 0 and only ever assigned
numbers. -/
def canSubmit (stateCandidates : List Candidate) (vs : VotingState) : Bool :=
  let hasVotes := vs.votes.any fun p => 0 < p.2
  let hasCandidateFeedback := vs.candidateFeedback.any fun p => strTrimNonempty p.2
  let hasOverallFeedback := strTrimNonempty vs.overallFeedback
  let hasWorkerFeedback := vs.workerFeedback.any fun p => strTrimNonempty p.2
  let hasPromptFeedback := strTrimNonempty vs.promptFeedback
  let hasPromptRating := true
  let hasCandidates := !stateCandidates.isEmpty
  hasCandidates || hasVotes || hasCandidateFeedback || hasOverallFeedback ||
    hasWorkerFeedback || hasPromptFeedback || hasPromptRating

/-- The slice of the voting view that `buildVotingUI` decides: whether the
submit button ends up enabled, its relabelling, and whether the
"No Candidates Synthesized" warning is rendered. -/
structure VotingView where
  submitEnabled : Bool
  submitLabel : Option String
  noCandidatesWarning : Bool
deriving DecidableEq, Repr

/-- voting.js `buildVotingUI` (lines 24-102), restricted to the voting state
and the submit control. With an empty candidate list (lines 56-75) the warning
is rendered and the button is explicitly enabled and relabelled
"Submit Feedback"; in both branches `updateSubmitButton` (line 95) finally
sets `disabled = !canSubmit`. -/
def buildVotingUI (candidates : List Candidate) : VotingState × VotingView :=
  let vs := resetVotingState
  if candidates.isEmpty then
    (vs, { submitEnabled := canSubmit candidates vs
           submitLabel := some "Submit Feedback"
           noCandidatesWarning := true })
  else
    (vs, { submitEnabled := canSubmit candidates vs
           submitLabel := none
           noCandidatesWarning := false })

/-- The `submitData` object posted to `/session/:id/vote`
(voting.js lines 518-526). -/
structure VoteSubmission where
  votes : List (String × Nat)
  candidate_feedback : List (String × String)
  overall_feedback : String
  worker_feedback : List (String × String)
  synthesizer_feedback : String
  prompt_rating : Nat
  prompt_feedback : String
deriving DecidableEq, Repr

/-- voting.js `submitVotes` (lines 509-541): when `state.candidates` is null or
empty, the function alerts and returns without posting anything (`none`);
otherwise it posts the collected `submitData` (`some`). -/
def submitVotes (stateCandidates : List Candidate) (vs : VotingState) :
    Option VoteSubmission :=
  if stateCandidates.isEmpty then none
  else
    some { votes := vs.votes
           candidate_feedback := vs.candidateFeedback
           overall_feedback := vs.overallFeedback
           worker_feedback := vs.workerFeedback
           synthesizer_feedback := vs.synthesizerFeedback
           prompt_rating := vs.promptRating
           prompt_feedback := vs.promptFeedback }

/-- Claim C1, evaluated on the code at the failing input: with zero synthesized
candidates `buildVotingUI` renders the degraded-mode warning and leaves the
submit control enabled ("Submit Feedback"), yet `submitVotes` rejects the
submission (no vote request is sent), so vote and finalize cannot complete.
This contradicts the spec's feedback-only degraded mode and the code's own
comment "Enable submit button for feedback-only submission" (voting.js line
70). -/
theorem C1_empty_candidates_vote_rejected :
    (buildVotingUI []).2.submitEnabled = true ∧
    (buildVotingUI []).2.noCandidatesWarning = true ∧
    submitVotes [] (buildVotingUI []).1 = none := by
  refine ⟨?_, rfl, rfl⟩
  simp [buildVotingUI, canSubmit]

/-! ## Feedback submission bodies (session.js, claim C5) -/

/-- A JSON value, restricted to the shapes the feedback bodies use: a number,
a boolean, or a flat string-to-string map (the per-worker feedback object). -/
inductive JVal where
| jnum (n : Nat)
| jbool (b : Bool)
| jmap (entries : List (String × String))
deriving DecidableEq, Repr

/-- One client POST: the endpoint path and the JSON body as an ordered list of
key-value pairs, exactly as the JS object literal spells them. -/
structure ApiPost where
  path : String
  body : List (String × JVal)
deriving DecidableEq, Repr

/-- session.js `submitRoundFeedback` (lines 1158-1167): the request posted to
`/session/:id/round-feedback`. -/
def submitRoundFeedbackPost (sessionId : String) (round : Nat)
    (workerFeedback : List (String × String)) (skipToSynthesis : Bool) :
    ApiPost :=
  { path := "/session/" ++ sessionId ++ "/round-feedback"
    body := [("round", .jnum round),
             ("worker_feedback", .jmap workerFeedback),
             ("skip_to_synthesis", .jbool skipToSynthesis)] }

/-- session.js `submitCollabFeedback` (lines 1311-1320): the request posted to
`/session/:id/collab-feedback`. -/
def submitCollabFeedbackPost (sessionId : String) (round : Nat)
    (workerFeedback : List (String × String)) (skip : Bool) : ApiPost :=
  { path := "/session/" ++ sessionId ++ "/collab-feedback"
    body := [("round", .jnum round),
             ("worker_feedback", .jmap workerFeedback),
             ("skip_to_synthesis", .jbool skip)] }

/-- session.js `submitArgumentFeedback` (lines 1422-1430): the request posted
to `/session/:id/argument-feedback`. -/
def submitArgumentFeedbackPost (sessionId : String) (round : Nat)
    (workerFeedback : List (String × String)) (skipToVoting : Bool) :
    ApiPost :=
  { path := "/session/" ++ sessionId ++ "/argument-feedback"
    body := [("round", .jnum round),
             ("worker_feedback", .jmap workerFeedback),
             ("skip_to_voting", .jbool skipToVoting)] }

/-- Claim C5: every round-feedback, collab-feedback and argument-feedback
submission carries a body whose keys are exactly the round number, the
per-worker feedback map, and one boolean skip flag — `skip_to_synthesis` for
refinement and collaboration rounds, `skip_to_voting` for argument rounds —
for every feedback map, including the empty one. -/
theorem C5_feedback_bodies (sessionId : String) (round : Nat)
    (fb : List (String × String)) (skip : Bool) :
    (submitRoundFeedbackPost sessionId round fb skip).body.map Prod.fst
        = ["round", "worker_feedback", "skip_to_synthesis"] ∧
    (submitCollabFeedbackPost sessionId round fb skip).body.map Prod.fst
        = ["round", "worker_feedback", "skip_to_synthesis"] ∧
    (submitArgumentFeedbackPost sessionId round fb skip).body.map Prod.fst
        = ["round", "worker_feedback", "skip_to_voting"] ∧
    ((submitRoundFeedbackPost sessionId round fb skip).body.lookup "round"
        = some (.jnum round) ∧
      (submitRoundFeedbackPost sessionId round fb skip).body.lookup
          "worker_feedback" = some (.jmap fb) ∧
      (submitRoundFeedbackPost sessionId round fb skip).body.lookup
          "skip_to_synthesis" = some (.jbool skip)) ∧
    ((submitCollabFeedbackPost sessionId round fb skip).body.lookup "round"
        = some (.jnum round) ∧
      (submitCollabFeedbackPost sessionId round fb skip).body.lookup
          "worker_feedback" = some (.jmap fb) ∧
      (submitCollabFeedbackPost sessionId round fb skip).body.lookup
          "skip_to_synthesis" = some (.jbool skip)) ∧
    ((submitArgumentFeedbackPost sessionId round fb skip).body.lookup "round"
        = some (.jnum round) ∧
      (submitArgumentFeedbackPost sessionId round fb skip).body.lookup
          "worker_feedback" = some (.jmap fb) ∧
      (submitArgumentFeedbackPost sessionId round fb skip).body.lookup
          "skip_to_voting" = some (.jbool skip)) := by
  refine ⟨rfl, rfl, rfl, ⟨?_, ?_, ?_⟩, ⟨?_, ?_, ?_⟩, ⟨?_, ?_, ?_⟩⟩ <;>
    simp [submitRoundFeedbackPost, submitCollabFeedbackPost,
      submitArgumentFeedbackPost, List.lookup]

/-! ## Event streams and their termination (session.js, claim C3)

The closed set of event kinds of spec section 6. `axExtracted` stands for the
kind the wire calls axiom_extracted; `info` is the extra informational kind the
finalize handler recognises (voting.js line 594). -/

/-- One server-sent event kind, as discriminated by the `data.type` tag. -/
inductive EventKind where
| stage_start
| worker_start
| worker_complete
| synth_commentary
| stage_complete
| tokens_update
| memory_warning
| awaiting_round_feedback
| awaiting_collab_feedback
| awaiting_argument_feedback
| awaiting_user_input
| axExtracted
| final_output
| info
| error
| complete
deriving DecidableEq, Repr, Fintype

/-- The four checkpoint kinds the spec groups as awaiting_* events. -/
def isAwaitingKind : EventKind → Bool
| .awaiting_round_feedback => true
| .awaiting_collab_feedback => true
| .awaiting_argument_feedback => true
| .awaiting_user_input => true
| _ => false

/-- session.js `runPipeline` (lines 312-330): the run stream's onmessage
handler closes the EventSource exactly on `complete` or
`awaiting_user_input`. -/
def runCloses : EventKind → Bool
| .complete => true
| .awaiting_user_input => true
| _ => false

/-- session.js `continuePipeline` (lines 1188-1205): the continue stream's
onmessage handler closes on `complete`, `awaiting_user_input`,
`awaiting_round_feedback` or `awaiting_argument_feedback` — notably not on
`awaiting_collab_feedback`. -/
def continueCloses : EventKind → Bool
| .complete => true
| .awaiting_user_input => true
| .awaiting_round_feedback => true
| .awaiting_argument_feedback => true
| _ => false

/-- session.js `diversifyWorkers` (lines 333-381): the diversify stream's
onmessage handler closes on `complete` or `error`. -/
def diversifyCloses : EventKind → Bool
| .complete => true
| .error => true
| _ => false

/-- Whether a stream governed by the close condition `closes` is still open
after the given sequence of received events: a stream, once closed, receives
no further events. -/
def streamOpenAfter (closes : EventKind → Bool) (events : List EventKind) :
    Bool :=
  events.foldl (fun isOpen e => isOpen && !closes e) true

lemma streamOpenAfter_eq_all (closes : EventKind → Bool) :
    ∀ (events : List EventKind) (b : Bool),
      events.foldl (fun isOpen e => isOpen && !closes e) b
        = (b && events.all fun e => !closes e) := by
  intro events
  induction events with
  | nil => intro b; simp
  | cons e rest ih =>
      intro b
      simp only [List.foldl_cons, List.all_cons, ih, Bool.and_assoc]

lemma streamOpenAfter_false_iff (closes : EventKind → Bool)
    (events : List EventKind) :
    streamOpenAfter closes events = false ↔ ∃ e ∈ events, closes e = true := by
  unfold streamOpenAfter
  rw [streamOpenAfter_eq_all]
  simp

/-- Counterexample to claim C3 as stated: the continue stream does not close
on `awaiting_collab_feedback` even though it is an awaiting_* kind (and the
run stream likewise stays open on `awaiting_round_feedback`, while the
diversify stream closes on `error`, which is neither `complete` nor an
awaiting_* kind). -/
theorem C3_counterexample :
    (continueCloses .awaiting_collab_feedback
        = (EventKind.awaiting_collab_feedback == .complete
            || isAwaitingKind .awaiting_collab_feedback)) = False ∧
    continueCloses .awaiting_collab_feedback = false ∧
    isAwaitingKind .awaiting_collab_feedback = true ∧
    runCloses .awaiting_round_feedback = false ∧
    isAwaitingKind .awaiting_round_feedback = true ∧
    diversifyCloses .error = true ∧
    isAwaitingKind .error = false := by
  decide

/-- Claim C3 as amended: each stream closes exactly on its own set of kinds —
run on `complete` or `awaiting_user_input`; continue on `complete`,
`awaiting_user_input`, `awaiting_round_feedback` or
`awaiting_argument_feedback` (not `awaiting_collab_feedback`); diversify on
`complete` or `error` — and a stream is closed after a sequence of events
precisely when the sequence contains one of its closing kinds. -/
theorem C3_stream_close_conditions :
    (∀ k : EventKind,
        runCloses k = (k == .complete || k == .awaiting_user_input)) ∧
    (∀ k : EventKind,
        continueCloses k = (k == .complete || k == .awaiting_user_input
          || k == .awaiting_round_feedback
          || k == .awaiting_argument_feedback)) ∧
    (∀ k : EventKind, diversifyCloses k = (k == .complete || k == .error)) ∧
    (∀ events : List EventKind,
        (streamOpenAfter runCloses events = false
          ↔ ∃ e ∈ events, runCloses e = true)) ∧
    (∀ events : List EventKind,
        (streamOpenAfter continueCloses events = false
          ↔ ∃ e ∈ events, continueCloses e = true)) ∧
    (∀ events : List EventKind,
        (streamOpenAfter diversifyCloses events = false
          ↔ ∃ e ∈ events, diversifyCloses e = true)) := by
  refine ⟨by decide, by decide, by decide, ?_, ?_, ?_⟩ <;>
    intro events <;> exact streamOpenAfter_false_iff _ events

/-! ## Disconnect behaviour of the run stream (session.js, claim C4) -/

/-- The client-side state of one run stream: whether the EventSource is open
and the sequence of events handed to `handlePipelineEvent` (rendered), in
arrival order. The client holds no event sequence numbers and no delivery
cursor of any kind. -/
structure RunStream where
  isOpen : Bool
  rendered : List EventKind
deriving DecidableEq, Repr

/-- session.js `runPipeline` onmessage (lines 315-322): while the stream is
open, each arriving event is handed to `handlePipelineEvent` and the stream
closes when `runCloses` says so; a closed EventSource fires no message
handlers. -/
def runStreamStep (s : RunStream) (e : EventKind) : RunStream :=
  if s.isOpen then
    { isOpen := !runCloses e, rendered := s.rendered ++ [e] }
  else s

/-- session.js `runPipeline` onerror (lines 324-329), the handler run on a
mid-stage disconnect: it closes the EventSource, resets the progress display
and logs "Pipeline connection lost". It opens no new EventSource — the second
component is the URL of a reconnection request, and none is ever issued. -/
def runStreamOnError (s : RunStream) : RunStream × Option String :=
  ({ s with isOpen := false }, none)

/-- Counterexample to claim C4 as stated, at a concrete consumer that has
rendered one `worker_complete` and then disconnects mid-stage: the disconnect
handler issues no reconnection request at all (`none`), so delivery does not
resume from any acknowledged sequence number — no such number even exists in
the client. -/
theorem C4_counterexample :
    (runStreamOnError { isOpen := true, rendered := [.worker_complete] }).2
      = none := by
  rfl

/-- Claim C4 as amended: a consumer that disconnects mid-stage closes the
stream and issues no reconnection or resume request; its rendered events are
left untouched, and the closed stream processes no further events — so no
`worker_complete` event delivered before the disconnect is rendered a second
time, because delivery never resumes on that stream at all. -/
theorem C4_disconnect_no_resume (s : RunStream) (e : EventKind) :
    (runStreamOnError s).2 = none ∧
    (runStreamOnError s).1.isOpen = false ∧
    (runStreamOnError s).1.rendered = s.rendered ∧
    runStreamStep (runStreamOnError s).1 e = (runStreamOnError s).1 := by
  refine ⟨rfl, rfl, rfl, ?_⟩
  simp [runStreamOnError, runStreamStep]

/-! ## Worker-count clamping (app.js, claim C6)

JS numbers that may be NaN are embedded as `Option Int` with `none` for NaN:
`parseInt` yields NaN on non-numeric input, and NaN propagates through
`Math.max` / `Math.min`. -/

/-- Leading decimal digits of a character list. -/
def takeDigits : List Char → List Nat
| [] => []
| c :: cs => if c.isDigit then (c.toNat - 48) :: takeDigits cs else []

/-- Value of a digit list read left to right. -/
def digitsToNat (ds : List Nat) : Nat :=
  ds.foldl (fun acc d => acc * 10 + d) 0

/-- JS `parseInt(s)` (radix 10): skip leading spaces, accept an optional sign,
then read leading digits; NaN (`none`) when no digit follows. Exotic inputs
(hex prefixes, full Unicode whitespace) do not occur in this UI and are out of
scope. -/
def parseIntJS (s : String) : Option Int :=
  let cs := s.data.dropWhile fun c => c = ' '
  match cs with
  | '-' :: rest =>
      let ds := takeDigits rest
      if ds.isEmpty then none else some (-(digitsToNat ds : Int))
  | '+' :: rest =>
      let ds := takeDigits rest
      if ds.isEmpty then none else some (digitsToNat ds : Int)
  | _ =>
      let ds := takeDigits cs
      if ds.isEmpty then none else some (digitsToNat ds : Int)

/-- JS `Math.max(a, b)` with a possibly-NaN first argument: NaN propagates. -/
def jsMax (a : Option Int) (b : Int) : Option Int :=
  a.map fun x => max x b

/-- JS `Math.min(a, b)` with a possibly-NaN first argument: NaN propagates. -/
def jsMin (a : Option Int) (b : Int) : Option Int :=
  a.map fun x => min x b

/-- app.js line 720: `state.currentMode === '32GB' ? 4 : 3`. -/
def maxWorkersFor (mode : String) : Int :=
  if mode = "32GB" then 4 else 3

/-- app.js `initializeSettingsHandlers`, worker-count change handler (lines
717-725): `parseInt` the control's value, then
`Math.min(Math.max(count, 2), maxWorkers)`. The result is written back into
the control and passed to `updateWorkerCount`. -/
def workerCountChange (mode : String) (input : String) : Option Int :=
  jsMin (jsMax (parseIntJS input) 2) (maxWorkersFor mode)

/-- The slice of `state.config` that `updateWorkerCount` writes
(app.js lines 764-767): the worker count, a possibly-NaN JS number. -/
structure ClientConfig where
  workerCount : Option Int
deriving DecidableEq, Repr

/-- The change handler's effect on `state.config.worker_count`: the clamped
(or NaN) value is stored as is. -/
def applyWorkerCountChange (mode : String) (input : String)
    (cfg : ClientConfig) : ClientConfig :=
  { cfg with workerCount := workerCountChange mode input }

/-- Counterexample to claim C6 as stated: the non-numeric entry "abc" parses
to NaN, `Math.max`/`Math.min` propagate it, and the handler stores NaN — not a
value clamped into [2, 3] — as the configured worker count in 16GB mode. -/
theorem C6_counterexample :
    workerCountChange "16GB" "abc" = none ∧
    (applyWorkerCountChange "16GB" "abc" { workerCount := some 2 }).workerCount
      = none := by
  refine ⟨rfl, rfl⟩

/-- Claim C6 as amended: for every entry that parses to a number n, the
resulting count is exactly min(max(n, 2), maxWorkers) — with maxWorkers 3 in
16GB mode and 4 in 32GB mode — and therefore lies within [2, maxWorkers];
non-numeric input instead yields NaN, which is stored unclamped. -/
theorem C6_worker_count_clamped (mode input : String) (n : Int)
    (h : parseIntJS input = some n) :
    workerCountChange mode input = some (min (max n 2) (maxWorkersFor mode)) ∧
    2 ≤ min (max n 2) (maxWorkersFor mode) ∧
    min (max n 2) (maxWorkersFor mode) ≤ maxWorkersFor mode := by
  refine ⟨?_, ?_, min_le_right _ _⟩
  · simp [workerCountChange, jsMax, jsMin, h]
  · have h2 : (2 : Int) ≤ maxWorkersFor mode := by
      unfold maxWorkersFor
      split <;> omega
    have h3 : (2 : Int) ≤ max n 2 := le_max_right _ _
    exact le_min h3 h2

/-- Witness for the amended C6: the entry "10" in 16GB mode is clamped to 3,
inside the allowed bounds. -/
theorem C6_worker_count_clamped_witness :
    workerCountChange "16GB" "10" = some 3 ∧
    (2 : Int) ≤ 3 ∧ (3 : Int) ≤ maxWorkersFor "16GB" := by
  have h := C6_worker_count_clamped "16GB" "10" 10 (by rfl)
  have hmm : min (max (10 : Int) 2) (maxWorkersFor "16GB") = 3 := by
    decide
  refine ⟨?_, ?_, ?_⟩
  · rw [h.1, hmm]
  · omega
  · rw [← hmm]
    exact h.2.2

/-! ## Global application state (app.js, claims C9 and C10) -/

/-- app.js `state.tokenStats` (lines 16-25). -/
structure TokenStats where
  totalTokens : Nat
  inputTokens : Nat
  outputTokens : Nat
  callCount : Nat
  workerContextLimit : Nat
  synthContextLimit : Nat
  lastWorkerContextUsed : Nat
  lastSynthContextUsed : Nat
deriving DecidableEq, Repr

/-- The mode configuration returned by `POST /config/mode` and kept in
`state.config`; only the fields the claims touch. The worker count is a
possibly-NaN JS number (claim C6). -/
structure ModeConfig where
  mode : String
  workerCount : Option Int
deriving DecidableEq, Repr

/-- app.js global `state` (lines 7-26). Workers are kept by their slot ids;
persona binding detail is irrelevant to the claims over this state. -/
structure AppState where
  currentView : String
  currentMode : String
  sessionId : Option String
  sessionActive : Bool
  personas : List String
  workers : List String
  config : Option ModeConfig
  tokenStats : TokenStats
deriving DecidableEq, Repr

/-- The three sessionStorage keys of app.js `STORAGE_KEYS` (lines 29-33);
`none` means the key is absent. -/
structure SessionStorage where
  sessionIdKey : Option String
  sessionActiveKey : Option String
  currentViewKey : Option String
deriving DecidableEq, Repr

/-- One HTTP request issued through the `api` helper. -/
structure ApiCall where
  method : String
  path : String
deriving DecidableEq, Repr

/-- app.js `clearSessionState` (lines 124-128): removes all three
sessionStorage keys. -/
def clearSessionState (_st : SessionStorage) : SessionStorage :=
  { sessionIdKey := none, sessionActiveKey := none, currentViewKey := none }

/-- app.js `initializeWorkerCards` (lines 326-347): rebuild `state.workers`
from `state.config?.worker_count || (mode === '32GB' ? 3 : 2)`; the JS `||`
falls back on a missing config and on the falsy counts 0 and NaN. -/
def initializeWorkerCards (s : AppState) : AppState :=
  let fallback : Nat := if s.currentMode = "32GB" then 3 else 2
  let workerCount : Nat :=
    match s.config with
    | some c =>
        match c.workerCount with
        | some n => if n ≤ 0 then fallback else n.toNat
        | none => fallback
    | none => fallback
  { s with workers :=
      (List.range workerCount).map fun i => "worker_" ++ toString (i + 1) }

/-- app.js `setMode` (lines 255-271): when a session is active the function
alerts and returns before any request is made (lines 256-260); otherwise it
posts `/config/mode` and stores the returned configuration, then refreshes the
mode UI and the worker cards. The response is passed in as `apiResult`. -/
def setMode (s : AppState) (_mode : String) (apiResult : ModeConfig) :
    AppState × List ApiCall :=
  if s.sessionActive then (s, [])
  else
    let s1 := { s with currentMode := apiResult.mode, config := some apiResult }
    (initializeWorkerCards s1, [{ method := "POST", path := "/config/mode" }])

/-- Claim C9: calling `setMode` while a session is active is a no-op on the
application state — no mode-change request is issued and every state field,
`currentMode` and `config` included, is unchanged. -/
theorem C9_setMode_noop_when_active (s : AppState) (mode : String)
    (apiResult : ModeConfig) (h : s.sessionActive = true) :
    setMode s mode apiResult = (s, []) := by
  simp [setMode, h]

/-- Witness for C9 at a concrete active state: the blocked call returns the
state unchanged and issues no request. -/
theorem C9_setMode_noop_when_active_witness :
    setMode
      { currentView := "session", currentMode := "16GB"
        sessionId := some "sid-1", sessionActive := true
        personas := [], workers := ["worker_1", "worker_2"]
        config := some { mode := "16GB", workerCount := some 2 }
        tokenStats :=
          { totalTokens := 0, inputTokens := 0, outputTokens := 0
            callCount := 0, workerContextLimit := 8192
            synthContextLimit := 20480, lastWorkerContextUsed := 0
            lastSynthContextUsed := 0 } }
      "32GB" { mode := "32GB", workerCount := some 3 }
      = ({ currentView := "session", currentMode := "16GB"
           sessionId := some "sid-1", sessionActive := true
           personas := [], workers := ["worker_1", "worker_2"]
           config := some { mode := "16GB", workerCount := some 2 }
           tokenStats :=
             { totalTokens := 0, inputTokens := 0, outputTokens := 0
               callCount := 0, workerContextLimit := 8192
               synthContextLimit := 20480, lastWorkerContextUsed := 0
               lastSynthContextUsed := 0 } }, []) :=
  C9_setMode_noop_when_active _ _ _ rfl

/-- app.js `endCouncil` (lines 193-252): with `showConfirm = true` a declined
confirm dialog aborts with `false` and changes nothing; otherwise the function
nulls `state.sessionId`, clears `state.sessionActive`, removes the three
sessionStorage keys via `clearSessionState`, rebuilds the worker cards, resets
the view to "session" and returns `true`. No request is made through the `api`
helper anywhere in the function. -/
def endCouncil (s : AppState) (st : SessionStorage) (showConfirm : Bool)
    (confirmAnswer : Bool) : AppState × SessionStorage × List ApiCall × Bool :=
  if showConfirm && !confirmAnswer then (s, st, [], false)
  else
    let s1 := { s with sessionId := none, sessionActive := false }
    let s2 := initializeWorkerCards s1
    let s3 := { s2 with currentView := "session" }
    (s3, clearSessionState st, [], true)

/-- Claim C10: every call to `endCouncil` with `showConfirm = false` returns
true, leaves the client session state cleared — `sessionId` is none,
`sessionActive` is false, and all three sessionStorage keys are removed — and
issues no server request, so the server-side session is not torn down or
marked aborted by this operation. -/
theorem C10_endCouncil_clears_locally (s : AppState) (st : SessionStorage)
    (confirmAnswer : Bool) :
    (endCouncil s st false confirmAnswer).2.2.2 = true ∧
    (endCouncil s st false confirmAnswer).1.sessionId = none ∧
    (endCouncil s st false confirmAnswer).1.sessionActive = false ∧
    (endCouncil s st false confirmAnswer).2.1.sessionIdKey = none ∧
    (endCouncil s st false confirmAnswer).2.1.sessionActiveKey = none ∧
    (endCouncil s st false confirmAnswer).2.1.currentViewKey = none ∧
    (endCouncil s st false confirmAnswer).2.2.1 = [] := by
  refine ⟨rfl, ?_, ?_, rfl, rfl, rfl, rfl⟩ <;>
    simp [endCouncil, initializeWorkerCards, clearSessionState]

/-! ## Vote Aggregator (claim C2)

The Vote Aggregator runs server-side and its source is not under src/; it is
modelled here from the specification text (spec section 4.3). -/

/-- Modelled from the spec: rank normalization of the Vote Aggregator (spec
section 4.3), whose server-side source is missing from src/. A human rank r
out of k is converted to a 0-10 scale, linearly spaced by rank count
(1st maps to 10, 2nd of 3 to 20/3, 3rd of 3 to 10/3); skip or unranked
(rank 0) maps to 0. -/
def normalizeRank (rank k : Nat) : ℚ :=
  if rank = 0 ∨ k = 0 then 0
  else 10 * ((k : ℚ) - (rank : ℚ) + 1) / (k : ℚ)

/-- Modelled from the spec: the fixed vote weighting of the Vote Aggregator
(spec sections 3 invariant (e) and 4.3), whose server-side source is missing
from src/: combined score = machine_score x 0.4 + human_score x 0.6, in exact
rational arithmetic. -/
def combinedScore (machine human : ℚ) : ℚ :=
  machine * (4 / 10) + human * (6 / 10)

/-- Modelled from the spec: the aggregation step of the Vote Aggregator (spec
section 4.3), whose server-side source is missing from src/. Each candidate is
given a machine score (0-10) and a human rank (1..k or 0 for skip); the
aggregator computes the combined score per candidate and never re-derives
machine scores. -/
def aggregateScores (k : Nat) (cands : List (String × ℚ × Nat)) :
    List (String × ℚ) :=
  cands.map fun c => (c.1, combinedScore c.2.1 (normalizeRank c.2.2 k))

/-- Claim C2: the aggregated combined score of every candidate equals
machine x 0.4 + human x 0.6 exactly, and a machine score of 8.0 combined with
a 1st-of-3 human rank (normalized to 10.0) yields exactly 9.2 = 46/5. -/
theorem C2_combined_score (k : Nat) (cands : List (String × ℚ × Nat)) :
    (∀ c ∈ aggregateScores k cands, ∃ src ∈ cands,
        c.1 = src.1 ∧
        c.2 = src.2.1 * (4 / 10) + normalizeRank src.2.2 k * (6 / 10)) ∧
    normalizeRank 1 3 = 10 ∧
    combinedScore 8 (normalizeRank 1 3) = 46 / 5 ∧
    (46 / 5 : ℚ) = 9.2 := by
  refine ⟨?_, by norm_num [normalizeRank], by norm_num [normalizeRank, combinedScore], by norm_num⟩
  intro c hc
  obtain ⟨src, hsrc, he⟩ := List.mem_map.mp hc
  exact ⟨src, hsrc, by rw [← he], by rw [← he]; simp [combinedScore]⟩

/-- Witness for C2 at a concrete aggregation: one candidate with machine score
8 and human rank 1st of 3 aggregates to exactly 46/5 = 9.2. -/
theorem C2_combined_score_witness :
    (∃ src ∈ [("c1", (8 : ℚ), 1)],
        (("c1", (46 / 5 : ℚ))).1 = src.1 ∧
        (("c1", (46 / 5 : ℚ))).2
          = src.2.1 * (4 / 10) + normalizeRank src.2.2 3 * (6 / 10)) ∧
    combinedScore 8 (normalizeRank 1 3) = 46 / 5 := by
  have h := C2_combined_score 3 [("c1", (8 : ℚ), 1)]
  refine ⟨h.1 ("c1", (46 / 5 : ℚ)) ?_, h.2.2.1⟩
  simp [aggregateScores, combinedScore, normalizeRank]
  norm_num

/-! ## Persona Binding Layer (claim C7)

The persona swap executes server-side (the client only posts
`/session/:id/swap-persona`, app.js lines 403-441); its source is not under
src/ and is modelled here from the specification text (spec section 4.2). -/

/-- Session status (spec section 3). -/
inductive CouncilStatus where
| active
| awaitingInput
| completed
| aborted
| failed
deriving DecidableEq, Repr

/-- One typed stage output in a slot's history (spec section 3); the payload
detail is irrelevant to the swap semantics. -/
structure StageOutput where
  stage : Nat
  content : String
deriving DecidableEq, Repr

/-- A worker slot (spec section 3): bound persona, visible output history,
archived (hidden) outputs, and the slot's stage cursor — the index of the next
stage this slot will execute. -/
structure WorkerSlot where
  personaId : String
  history : List StageOutput
  archived : List StageOutput
  stageCursor : Nat
deriving DecidableEq, Repr

/-- A session as the Stage Engine holds it (spec section 3): slot table,
current stage index, status, and the length of the append-only log. -/
structure CouncilSession where
  slots : String → WorkerSlot
  currentStage : Nat
  status : CouncilStatus
  logCount : Nat

/-- The swap modes of spec section 4.2. -/
inductive SwapMode where
| keepAll
| archive
| restart
deriving DecidableEq, Repr

/-- Modelled from the spec: `swap(slot_id, new_persona_id, mode)` of the
Persona Binding Layer (spec section 4.2), whose server-side source is missing
from src/. A swap is only legal when the session is active or awaiting input;
it always appends one audit log entry. `keep_all` leaves the history intact;
`archive` hides prior outputs but retains them; `restart` clears the slot's
output history and resets its stage cursor to the session's current stage,
forcing re-execution of that stage for this slot on the next run or resume. -/
def swapPersona (sess : CouncilSession) (slotId newPersonaId : String)
    (mode : SwapMode) : CouncilSession :=
  if sess.status = .active ∨ sess.status = .awaitingInput then
    let slot := sess.slots slotId
    let updated :=
      match mode with
      | .keepAll => { slot with personaId := newPersonaId }
      | .archive =>
          { slot with
              personaId := newPersonaId,
              history := [],
              archived := slot.archived ++ slot.history }
      | .restart =>
          { slot with
              personaId := newPersonaId,
              history := [],
              stageCursor := sess.currentStage }
    { sess with
        slots := Function.update sess.slots slotId updated,
        logCount := sess.logCount + 1 }
  else sess

/-- A slot will (re-)execute the session's current stage on the next run or
resume call exactly when its stage cursor has not moved past that stage. -/
def reExecutesCurrentStage (sess : CouncilSession) (slotId : String) : Prop :=
  (sess.slots slotId).stageCursor ≤ sess.currentStage

/-- Claim C7: a persona swap with mode restart on a slot of an active session
clears that slot's prior StageOutput history and makes that slot re-execute
the current stage on the next run or resume call, for that slot only — every
other slot, its history included, is untouched, and whether any other slot
re-executes is unchanged. -/
theorem C7_restart_swap (sess : CouncilSession) (slotId newPersonaId : String)
    (h : sess.status = .active) :
    ((swapPersona sess slotId newPersonaId .restart).slots slotId).history
        = [] ∧
    reExecutesCurrentStage (swapPersona sess slotId newPersonaId .restart)
        slotId ∧
    (∀ other, other ≠ slotId →
        (swapPersona sess slotId newPersonaId .restart).slots other
          = sess.slots other) ∧
    (∀ other, other ≠ slotId →
        (reExecutesCurrentStage (swapPersona sess slotId newPersonaId .restart)
            other
          ↔ reExecutesCurrentStage sess other)) := by
  have hcond : sess.status = .active ∨ sess.status = .awaitingInput :=
    Or.inl h
  refine ⟨?_, ?_, ?_, ?_⟩
  · simp [swapPersona, hcond, h, Function.update_same]
  · simp [reExecutesCurrentStage, swapPersona, hcond, h, Function.update_same]
  · intro other hne
    simp [swapPersona, hcond, h, Function.update_noteq hne]
  · intro other hne
    simp [reExecutesCurrentStage, swapPersona, hcond, h,
      Function.update_noteq hne]

/-- A concrete one-slot-table session used by the C7 witness: both slots have
completed stage 1 (cursor 2) with one draft in their history. -/
def sampleSession : CouncilSession :=
  { slots := fun _ =>
      { personaId := "analyst", history := [{ stage := 0, content := "draft" }]
        archived := [], stageCursor := 2 }
    currentStage := 1
    status := .active
    logCount := 5 }

/-- Witness for C7 at `sampleSession`: restarting worker_1 empties its
history, makes it re-execute stage 1, and leaves worker_2's slot exactly as it
was. -/
theorem C7_restart_swap_witness :
    ((swapPersona sampleSession "worker_1" "creative" .restart).slots
        "worker_1").history = [] ∧
    reExecutesCurrentStage
        (swapPersona sampleSession "worker_1" "creative" .restart)
        "worker_1" ∧
    (swapPersona sampleSession "worker_1" "creative" .restart).slots
        "worker_2" = sampleSession.slots "worker_2" := by
  have h := C7_restart_swap sampleSession "worker_1" "creative" rfl
  exact ⟨h.1, h.2.1, h.2.2.1 "worker_2" (by decide)⟩

end AiCouncil
